import Mathlib

/-
Shallow embedding of src/services/registry/handlers/maintainers.js from
dmfay/entropic: the five maintainer-lifecycle HTTP handlers (maintainers
listing, invite, remove, accept, decline) together with the decorator
wiring of the route table.  Promises that settle are modelled with
Except: the source converts each storage promise to an [err, value] pair
via .then(xs => [null, xs], xs => [xs, null]), which is exactly the two
constructors of Except.  Handler outcomes carry the boltzmann response
value, the list of logger calls made, and (for the stateful decline
handler) the resulting store of Maintainership records.
-/

namespace Entropic

/-- A JavaScript value as it appears in the position of the second
argument of boltzmann response.error.  The source passes a numeric
literal there in the maintainers and decline handlers (404, 500) but
passes the string err.code in the invite and remove handlers, so the
embedding keeps both shapes. -/
inductive JsValue where
  | num (n : Nat)
  | str (s : String)
  deriving Repr, DecidableEq

/-- A call made on context.logger: logger.info or logger.error with the
given message. -/
inductive LogEntry where
  | info (msg : String)
  | error (msg : String)
  deriving Repr, DecidableEq

/-- A boltzmann response as produced by the handlers: response.error with
a message and a status argument, or response.message with a confirmation
string. -/
inductive Response where
  | error (msg : String) (status : JsValue)
  | message (msg : String)
  deriving Repr, DecidableEq

/-- What a handler invocation ends in: a returned response, or an uncaught
JavaScript exception escaping the handler (the maintainers success branch
throws a ReferenceError, see maintainers below). -/
inductive HandlerResult where
  | resp (r : Response)
  | thrown (e : String)
  deriving Repr, DecidableEq

/-- The rejection value of a storage-API promise: a string error code
(err.code, matched against the message tables of invite and remove), an
optional HTTP-like status (err.status, matched against 404 in the
maintainers handler) and a message (err.message, logged by the
maintainers handler). -/
structure StorageErr where
  code : String
  status : Option Nat
  message : String
  deriving Repr, DecidableEq

/-- The value the maintainers handler logs for an unexpected error:
err.message when it is truthy, otherwise the error object itself
(represented here by its code), mirroring the JS expression
err.message with the or-else fallback to err at line 49. -/
def errDetail (e : StorageErr) : String :=
  if e.message = "" then e.code else e.message

/-- Handler maintainers (lines 35-56).  Input: the settled result of
storageApi.getActiveMaintainers (a list of maintainer namespaces on
fulfilment) and the three package-path parameters.  Error with
status 404 yields a 404 response naming the package; any other error is
logged and yields a generic 500 response.  The success branch of the
source is return response.json with the shorthand object containing the
single identifier objects, but no binding named objects exists anywhere
in the module (the fetched list is bound to a local named maintainers,
line 36), so under strict mode evaluating that identifier throws a
ReferenceError, which the handler does not catch. -/
def maintainers (fetch : Except StorageErr (List String))
    (ns host name : String) : HandlerResult × List LogEntry :=
  match fetch with
  | .error err =>
    if err.status = some 404 then
      (.resp (.error s!"\"{ns}@{host}/{name}\" does not exist." (.num 404)), [])
    else
      (.resp (.error s!"Caught error fetching maintainers for \"{ns}@{host}/{name}\"." (.num 500)),
       [.error (errDetail err)])
  | .ok _ =>
    (.thrown "ReferenceError: objects is not defined", [])

/-- The error-code-to-message table of the invite handler (lines 73-78),
a JS object literal indexed by err.code; an unlisted code yields
undefined, modelled as none. -/
def inviteMsgTable (invitee : String) (code : String) : Option String :=
  if code = "invite.invitee_dne" then
    some s!"Unknown namespace: \"{invitee}\"."
  else if code = "invite.package_dne" then
    some s!"Unknown package: \"{invitee}\"."
  else if code = "invite.already_accepted" then
    some s!"Namespace \"{invitee}\" is already a member."
  else if code = "invite.already_declined" then
    some s!"Namespace \"{invitee}\" has declined this invite."
  else none

/-- Handler invite (lines 60-93).  Input: the settled result of
storageApi.inviteMaintainer, the name of the authenticated user
(context.user.name) and the path parameters.  On error it returns
response.error with the table message (or the generic fallback) and,
crucially, err.code itself as the status argument (line 81).  On
success it logs an info line and returns the confirmation message;
nothing is logged on the error path. -/
def invite (storage : Except StorageErr Unit)
    (user ns host name invitee : String) : HandlerResult × List LogEntry :=
  match storage with
  | .error err =>
    (.resp (.error
      ((inviteMsgTable invitee err.code).getD
        s!"Caught error inviting \"{invitee}\" to {ns}@{host}/{name}")
      (.str err.code)), [])
  | .ok _ =>
    (.resp (.message s!"{invitee} invited to join the maintainers of {ns}@{host}/{name}."),
     [.info s!"{invitee} invited to join the maintainers of {ns}@{host}/{name} by {user}"])

/-- The error-code-to-message table of the remove handler (lines
108-114).  The source object literal is missing a comma at the end of
line 110 (a JavaScript syntax slip); this embedding models the evident
five-entry table. -/
def removeMsgTable (ns host name invitee : String) (code : String) : Option String :=
  if code = "invite.invitee_dne" then
    some s!"Unknown namespace: \"{invitee}\"."
  else if code = "invite.invitee_not_maintainer" then
    some s!"{invitee} was not a maintainer of {ns}@{host}/{name}."
  else if code = "invite.package_dne" then
    some s!"Unknown package: \"{invitee}\"."
  else if code = "invite.already_accepted" then
    some s!"Namespace \"{invitee}\" is already a member."
  else if code = "invite.already_declined" then
    some s!"Namespace \"{invitee}\" has declined this invite."
  else none

/-- Handler remove (lines 95-131).  Same shape as invite: on error the
status argument of response.error is err.code (line 118), the fallback
message reads Caught error inviting (a copy-paste of the invite
fallback), and nothing is logged; on success it logs and confirms. -/
def remove (storage : Except StorageErr Unit)
    (user ns host name invitee : String) : HandlerResult × List LogEntry :=
  match storage with
  | .error err =>
    (.resp (.error
      ((removeMsgTable ns host name invitee err.code).getD
        s!"Caught error inviting \"{invitee}\" to {ns}@{host}/{name}")
      (.str err.code)), [])
  | .ok _ =>
    (.resp (.message s!"{invitee} removed as maintainer of {ns}@{host}/{name}."),
     [.info s!"{invitee} removed as maintainer of {ns}@{host}/{name} by {user}"])

/-- Handler accept (lines 133-152).  The settled result of
storageApi.acceptMaintainerInvite is destructured into [err] at line 134,
but err is never inspected afterwards: the handler unconditionally logs
the acceptance and returns the success confirmation, for fulfilment and
rejection alike.  The storage argument is therefore unused, exactly as in
the source. -/
def accept (_storage : Except StorageErr Unit)
    (user ns host name member : String) : HandlerResult × List LogEntry :=
  (.resp (.message s!"{member} is now a maintainer for {ns}@{host}/{name}"),
   [.info s!"{user} accepted the invitation for {member} to join {ns}@{host}/{name}"])

/-- A Maintainership record as stored by the Maintainer model: the fields
the decline handler reads and writes (id, namespace_id, package_id,
active, accepted, modified) plus created and invited_by from the data
model.  Timestamps are Nat. -/
structure Maintainership where
  id : Nat
  namespace_id : Nat
  package_id : Nat
  active : Bool
  accepted : Bool
  created : Nat
  modified : Nat
  invited_by : Nat
  deriving Repr, DecidableEq

/-- Maintainer.objects.get with the filter of decline lines 156-161:
the record whose namespace_id is the id of the member namespace, whose
package_id is the id of the package, with active true and accepted
false; none when the NotFound rejection is caught (line 162). -/
def getPending (db : List Maintainership) (memberId pkgId : Nat) :
    Option Maintainership :=
  db.find? (fun m =>
    m.namespace_id == memberId && m.package_id == pkgId &&
      m.active && !m.accepted)

/-- Maintainer.objects.filter on id followed by update with modified set
to the current time and active set to false (decline lines 168-175):
every record whose id matches is rewritten with those two fields, all
other records and all other fields are untouched. -/
def updateDeclined (db : List Maintainership) (recId : Nat) (now : Nat) :
    List Maintainership :=
  db.map (fun m =>
    if m.id = recId then { m with modified := now, active := false } else m)

/-- Handler decline (lines 154-185).  Inputs: the store of Maintainership
records, the id of the member namespace (context.member.id) and of the
package (context.pkg.id) resolved by the decorators, the current time
(new Date()), the authenticated user name and the path parameters.
Output: the handler result, the logger calls, and the resulting store.
When no pending record matches, the handler returns the 404 error before
any update is issued and the store is returned unchanged. -/
def decline (db : List Maintainership) (memberId pkgId now : Nat)
    (user ns host name member : String) :
    HandlerResult × List LogEntry × List Maintainership :=
  match getPending db memberId pkgId with
  | none =>
    (.resp (.error "invitation not found" (.num 404)), [], db)
  | some invitation =>
    (.resp (.message s!"You have declined the invitation for {member} to join {ns}@{host}/{name}"),
     [.info s!"{user} declined the invitation for {member} to join {ns}@{host}/{name}"],
     updateDeclined db invitation.id now)

/-- Modelled from the spec: the decorator module
src/services/registry/decorators/can-write-package.js is not part of the
fragment.  Per the spec, the CanWritePackage predicate is evaluated
before the wrapped handler runs; a false result short-circuits with an
authorization failure (Unauthorized maps to 403) and performs no
mutation.  The decorator is generic in the state the inner handler
threads. -/
def canWrite {σ : Type} (canWritePackage : Bool)
    (inner : σ → (HandlerResult × List LogEntry) × σ) :
    σ → (HandlerResult × List LogEntry) × σ :=
  fun s =>
    if canWritePackage then inner s
    else ((.resp (.error "unauthorized" (.num 403)), []), s)

/-- Modelled from the spec: the decorator module
src/services/registry/decorators/is-namespace-member.js is not part of
the fragment.  Per the spec, the IsNamespaceMember predicate is
evaluated before the wrapped handler runs; a false result
short-circuits with an authorization failure and performs no
mutation. -/
def isNamespaceMember {σ : Type} (isMember : Bool)
    (inner : σ → (HandlerResult × List LogEntry) × σ) :
    σ → (HandlerResult × List LogEntry) × σ :=
  fun s =>
    if isMember then inner s
    else ((.resp (.error "unauthorized" (.num 403)), []), s)

/-- Modelled from the spec: the decorator module
src/services/registry/decorators/find-invitee.js is not part of the
fragment.  It resolves the invitee namespace before the wrapped handler
runs and short-circuits with InviteeNotFound when it does not
resolve. -/
def findInvitee {σ : Type} (inviteeFound : Bool)
    (inner : σ → (HandlerResult × List LogEntry) × σ) :
    σ → (HandlerResult × List LogEntry) × σ :=
  fun s =>
    if inviteeFound then inner s
    else ((.resp (.error "invitee not found" (.num 404)), []), s)

/-- Modelled from the spec: the decorator module
src/services/registry/decorators/package-exists.js is not part of the
fragment.  It resolves the package before the wrapped handler runs and
short-circuits with PackageNotFound when it does not resolve. -/
def packageExists {σ : Type} (pkgFound : Bool)
    (inner : σ → (HandlerResult × List LogEntry) × σ) :
    σ → (HandlerResult × List LogEntry) × σ :=
  fun s =>
    if pkgFound then inner s
    else ((.resp (.error "package not found" (.num 404)), []), s)

/-- Route wiring of the invite endpoint, line 19 of the source:
findInvitee wrapping canWrite wrapping the handler. -/
def inviteEndpoint {σ : Type} (inviteeFound canWritePackage : Bool)
    (inner : σ → (HandlerResult × List LogEntry) × σ) :
    σ → (HandlerResult × List LogEntry) × σ :=
  findInvitee inviteeFound (canWrite canWritePackage inner)

/-- Route wiring of the remove endpoint, line 23 of the source:
findInvitee wrapping canWrite wrapping the handler. -/
def removeEndpoint {σ : Type} (inviteeFound canWritePackage : Bool)
    (inner : σ → (HandlerResult × List LogEntry) × σ) :
    σ → (HandlerResult × List LogEntry) × σ :=
  findInvitee inviteeFound (canWrite canWritePackage inner)

/-- Route wiring of the accept endpoint, line 27 of the source:
packageExists wrapping isNamespaceMember wrapping the handler. -/
def acceptEndpoint {σ : Type} (pkgFound isMember : Bool)
    (inner : σ → (HandlerResult × List LogEntry) × σ) :
    σ → (HandlerResult × List LogEntry) × σ :=
  packageExists pkgFound (isNamespaceMember isMember inner)

/-- Route wiring of the decline endpoint, line 31 of the source:
packageExists wrapping isNamespaceMember wrapping the handler. -/
def declineEndpoint {σ : Type} (pkgFound isMember : Bool)
    (inner : σ → (HandlerResult × List LogEntry) × σ) :
    σ → (HandlerResult × List LogEntry) × σ :=
  packageExists pkgFound (isNamespaceMember isMember inner)

/-- C1: refuted by the code.  The accept handler destructures the settled
storage result into a binding for the error at line 134 but never
inspects it: on a rejection signalling that no Pending record exists for
the pair, it still logs the acceptance and returns the success
confirmation, rather than failing with InvitationNotFound. -/
theorem accept_succeeds_despite_storage_error :
    accept (.error ⟨"invite.invitation_dne", some 404, "no pending invitation"⟩)
      "carol" "acme" "github" "widget" "bob" =
      (.resp (.message "bob is now a maintainer for acme@github/widget"),
       [.info "carol accepted the invitation for bob to join acme@github/widget"]) := rfl

/-- C2: refuted by the code.  When the storage fetch succeeds with a list
of maintainer namespaces, the handler does not return that list: the
success branch references the undefined identifier objects, so the
invocation ends in an uncaught ReferenceError instead of a success
payload carrying the fetched value. -/
theorem maintainers_success_throws_reference_error :
    maintainers (.ok ["bob"]) "acme" "github" "widget" =
      (.thrown "ReferenceError: objects is not defined", []) := rfl

/-- C5: refuted by the code.  On failure, invite and remove pass err.code
itself, a string such as invite.package_dne, as the status argument of
response.error (lines 81 and 118).  The transport status of the error
response is therefore the raw code string and never one of the numeric
statuses 404, 409 or 500 of the failure-to-status mapping. -/
theorem invite_remove_status_is_error_code :
    (invite (.error ⟨"invite.package_dne", none, ""⟩)
       "alice" "acme" "github" "widget" "bob" =
       (.resp (.error "Unknown package: \"bob\"." (.str "invite.package_dne")), [])) ∧
    (remove (.error ⟨"invite.invitee_not_maintainer", none, ""⟩)
       "alice" "acme" "github" "widget" "bob" =
       (.resp (.error "bob was not a maintainer of acme@github/widget."
         (.str "invite.invitee_not_maintainer")), [])) ∧
    (JsValue.str "invite.package_dne" ≠ JsValue.num 404 ∧
     JsValue.str "invite.package_dne" ≠ JsValue.num 409 ∧
     JsValue.str "invite.package_dne" ≠ JsValue.num 500 ∧
     JsValue.str "invite.invitee_not_maintainer" ≠ JsValue.num 404 ∧
     JsValue.str "invite.invitee_not_maintainer" ≠ JsValue.num 409 ∧
     JsValue.str "invite.invitee_not_maintainer" ≠ JsValue.num 500) := by
  refine ⟨rfl, rfl, ?_, ?_, ?_, ?_, ?_, ?_⟩ <;> intro h <;> cases h

/-- C3: when no record with active true and accepted false exists for the
member namespace of the bearer and the package, decline returns the 404
error response with message invitation not found, for every caller
identity and every path parameter, and issues no update. -/
theorem decline_fails_invitation_not_found (db : List Maintainership)
    (memberId pkgId now : Nat) (user ns host name member : String)
    (h : getPending db memberId pkgId = none) :
    decline db memberId pkgId now user ns host name member =
      (.resp (.error "invitation not found" (.num 404)), [], db) := by
  unfold decline
  rw [h]

/-- Witness for decline_fails_invitation_not_found at the empty store. -/
theorem decline_fails_invitation_not_found_witness :
    getPending [] 1 2 = none ∧
    decline [] 1 2 99 "carol" "acme" "github" "widget" "carol" =
      (.resp (.error "invitation not found" (.num 404)), [], []) :=
  ⟨rfl, decline_fails_invitation_not_found [] 1 2 99 "carol" "acme" "github"
    "widget" "carol" rfl⟩

/-- C4: whenever a pending record exists for the member namespace and the
package, decline returns the confirmation message, logs exactly one info
event, replaces the store by the update of the matched id, and the store
afterwards contains the matched record with modified set to the current
time and active set to false. -/
theorem decline_success_updates_and_confirms (db : List Maintainership)
    (memberId pkgId now : Nat) (user ns host name member : String)
    (inv : Maintainership)
    (h : getPending db memberId pkgId = some inv) :
    decline db memberId pkgId now user ns host name member =
      (.resp (.message s!"You have declined the invitation for {member} to join {ns}@{host}/{name}"),
       [.info s!"{user} declined the invitation for {member} to join {ns}@{host}/{name}"],
       updateDeclined db inv.id now) ∧
    { inv with modified := now, active := false } ∈ updateDeclined db inv.id now := by
  constructor
  · unfold decline
    rw [h]
  · have hmem : inv ∈ db := List.mem_of_find?_eq_some h
    have h2 := List.mem_map_of_mem
      (fun m => if m.id = inv.id then
        { m with modified := now, active := false } else m) hmem
    simpa [updateDeclined] using h2

/-- A concrete pending Maintainership record used in witnesses. -/
def pendingRec : Maintainership :=
  ⟨1, 10, 20, true, false, 50, 50, 7⟩

/-- Witness for decline_success_updates_and_confirms at a one-record
store holding pendingRec. -/
theorem decline_success_updates_and_confirms_witness :
    getPending [pendingRec] 10 20 = some pendingRec ∧
    (decline [pendingRec] 10 20 99 "carol" "acme" "github" "widget" "bob" =
      (.resp (.message "You have declined the invitation for bob to join acme@github/widget"),
       [.info "carol declined the invitation for bob to join acme@github/widget"],
       updateDeclined [pendingRec] pendingRec.id 99) ∧
     { pendingRec with modified := 99, active := false } ∈
       updateDeclined [pendingRec] pendingRec.id 99) :=
  ⟨rfl, decline_success_updates_and_confirms [pendingRec] 10 20 99 "carol"
    "acme" "github" "widget" "bob" pendingRec rfl⟩

/-- C7: when the storage fetch rejects with status 404, the maintainers
handler returns a 404 error response whose message names the package,
and logs nothing. -/
theorem maintainers_package_not_found (e : StorageErr) (ns host name : String)
    (h : e.status = some 404) :
    maintainers (.error e) ns host name =
      (.resp (.error s!"\"{ns}@{host}/{name}\" does not exist." (.num 404)), []) := by
  simp [maintainers, h]

/-- Witness for maintainers_package_not_found at a concrete 404
rejection. -/
theorem maintainers_package_not_found_witness :
    (⟨"err.package_dne", some 404, ""⟩ : StorageErr).status = some 404 ∧
    maintainers (.error ⟨"err.package_dne", some 404, ""⟩) "acme" "github" "widget" =
      (.resp (.error "\"acme@github/widget\" does not exist." (.num 404)), []) :=
  ⟨rfl, maintainers_package_not_found ⟨"err.package_dne", some 404, ""⟩
    "acme" "github" "widget" rfl⟩

/-- C9: on the InvitationNotFound path, decline performs no storage
mutation at all: the store it returns is the input store, and the result
is the 404 error response. -/
theorem decline_not_found_no_mutation (db : List Maintainership)
    (memberId pkgId now : Nat) (user ns host name member : String)
    (h : getPending db memberId pkgId = none) :
    (decline db memberId pkgId now user ns host name member).2.2 = db ∧
    (decline db memberId pkgId now user ns host name member).1 =
      .resp (.error "invitation not found" (.num 404)) := by
  unfold decline
  rw [h]
  exact ⟨rfl, rfl⟩

/-- Witness for decline_not_found_no_mutation at a store holding one
accepted record that does not match the pending filter. -/
theorem decline_not_found_no_mutation_witness :
    getPending [⟨1, 10, 20, true, true, 50, 50, 7⟩] 10 20 = none ∧
    ((decline [⟨1, 10, 20, true, true, 50, 50, 7⟩] 10 20 99 "carol" "acme"
        "github" "widget" "carol").2.2 = [⟨1, 10, 20, true, true, 50, 50, 7⟩] ∧
     (decline [⟨1, 10, 20, true, true, 50, 50, 7⟩] 10 20 99 "carol" "acme"
        "github" "widget" "carol").1 =
       .resp (.error "invitation not found" (.num 404))) :=
  ⟨rfl, decline_not_found_no_mutation [⟨1, 10, 20, true, true, 50, 50, 7⟩]
    10 20 99 "carol" "acme" "github" "widget" "carol" rfl⟩

/-- C10: a successful decline rewrites only the modified and active
fields of the matched record: the matched record was active and not
accepted, its image in the new store keeps accepted false (hence lands in
the Declined shape with active false and accepted false) and keeps
created, invited_by, namespace_id, package_id and id unchanged, while
every record with a different id is carried over unchanged. -/
theorem decline_success_frame (db : List Maintainership)
    (memberId pkgId now : Nat) (user ns host name member : String)
    (inv : Maintainership)
    (h : getPending db memberId pkgId = some inv) :
    inv.active = true ∧ inv.accepted = false ∧
    (decline db memberId pkgId now user ns host name member).2.2 =
      updateDeclined db inv.id now ∧
    ({ inv with modified := now, active := false } : Maintainership).active = false ∧
    ({ inv with modified := now, active := false } : Maintainership).accepted = false ∧
    ({ inv with modified := now, active := false } : Maintainership).modified = now ∧
    ({ inv with modified := now, active := false } : Maintainership).created = inv.created ∧
    ({ inv with modified := now, active := false } : Maintainership).invited_by = inv.invited_by ∧
    ({ inv with modified := now, active := false } : Maintainership).namespace_id = inv.namespace_id ∧
    ({ inv with modified := now, active := false } : Maintainership).package_id = inv.package_id ∧
    ({ inv with modified := now, active := false } : Maintainership).id = inv.id ∧
    { inv with modified := now, active := false } ∈
      (decline db memberId pkgId now user ns host name member).2.2 ∧
    ∀ m ∈ db, m.id ≠ inv.id →
      m ∈ (decline db memberId pkgId now user ns host name member).2.2 := by
  have hp := List.find?_some h
  simp only [Bool.and_eq_true, beq_iff_eq, Bool.not_eq_true'] at hp
  have hstate : (decline db memberId pkgId now user ns host name member).2.2 =
      updateDeclined db inv.id now := by
    unfold decline
    rw [h]
  refine ⟨hp.1.2, hp.2, hstate, rfl, ?_, rfl, rfl, rfl, rfl, rfl, rfl, ?_, ?_⟩
  · show inv.accepted = false
    exact hp.2
  · have hmem : inv ∈ db := List.mem_of_find?_eq_some h
    have h2 := List.mem_map_of_mem
      (fun m => if m.id = inv.id then
        { m with modified := now, active := false } else m) hmem
    rw [hstate]
    simpa [updateDeclined] using h2
  · intro m hm hne
    have h2 := List.mem_map_of_mem
      (fun x => if x.id = inv.id then
        { x with modified := now, active := false } else x) hm
    rw [hstate]
    simpa [updateDeclined, hne] using h2

/-- Witness for decline_success_frame at a two-record store: pendingRec
matches, the non-matching record survives unchanged. -/
theorem decline_success_frame_witness :
    getPending [⟨2, 11, 20, true, true, 40, 40, 7⟩, pendingRec] 10 20 =
      some pendingRec ∧
    (pendingRec.active = true ∧ pendingRec.accepted = false ∧
     (decline [⟨2, 11, 20, true, true, 40, 40, 7⟩, pendingRec] 10 20 99
        "carol" "acme" "github" "widget" "bob").2.2 =
       updateDeclined [⟨2, 11, 20, true, true, 40, 40, 7⟩, pendingRec]
         pendingRec.id 99 ∧
     ({ pendingRec with modified := 99, active := false } : Maintainership).active = false ∧
     ({ pendingRec with modified := 99, active := false } : Maintainership).accepted = false ∧
     ({ pendingRec with modified := 99, active := false } : Maintainership).modified = 99 ∧
     ({ pendingRec with modified := 99, active := false } : Maintainership).created = pendingRec.created ∧
     ({ pendingRec with modified := 99, active := false } : Maintainership).invited_by = pendingRec.invited_by ∧
     ({ pendingRec with modified := 99, active := false } : Maintainership).namespace_id = pendingRec.namespace_id ∧
     ({ pendingRec with modified := 99, active := false } : Maintainership).package_id = pendingRec.package_id ∧
     ({ pendingRec with modified := 99, active := false } : Maintainership).id = pendingRec.id ∧
     { pendingRec with modified := 99, active := false } ∈
       (decline [⟨2, 11, 20, true, true, 40, 40, 7⟩, pendingRec] 10 20 99
         "carol" "acme" "github" "widget" "bob").2.2 ∧
     ∀ m ∈ [⟨2, 11, 20, true, true, 40, 40, 7⟩, pendingRec],
       m.id ≠ pendingRec.id →
       m ∈ (decline [⟨2, 11, 20, true, true, 40, 40, 7⟩, pendingRec] 10 20 99
         "carol" "acme" "github" "widget" "bob").2.2) :=
  ⟨rfl, decline_success_frame [⟨2, 11, 20, true, true, 40, 40, 7⟩, pendingRec]
    10 20 99 "carol" "acme" "github" "widget" "bob" pendingRec rfl⟩

/-- C6 counterexample: the invite handler logs nothing on its error path.
On an unmapped storage error whose internal detail is ECONNRESET
internal detail, the list of logger calls made by invite is empty, so
the error detail is not logged server-side, contrary to the claim that
every operation logs it. -/
theorem invite_unmapped_error_logs_nothing :
    (invite (.error ⟨"boom", none, "ECONNRESET internal detail"⟩)
       "alice" "acme" "github" "widget" "bob").2 = [] ∧
    errDetail ⟨"boom", none, "ECONNRESET internal detail"⟩ =
      "ECONNRESET internal detail" :=
  ⟨rfl, rfl⟩

/-- C6 as amended: for every unmapped storage error, the caller receives
only a generic failure message that is a fixed function of the package
and invitee names and does not carry the internal error text; the error
detail is logged server-side by the maintainers listing handler only,
while invite and remove log nothing on their error paths. -/
theorem unmapped_errors_generic_and_logging (e : StorageErr)
    (user ns host name invitee : String)
    (hm : ¬ e.status = some 404)
    (hi : inviteMsgTable invitee e.code = none)
    (hr : removeMsgTable ns host name invitee e.code = none) :
    maintainers (.error e) ns host name =
      (.resp (.error s!"Caught error fetching maintainers for \"{ns}@{host}/{name}\"." (.num 500)),
       [.error (errDetail e)]) ∧
    invite (.error e) user ns host name invitee =
      (.resp (.error s!"Caught error inviting \"{invitee}\" to {ns}@{host}/{name}" (.str e.code)), []) ∧
    remove (.error e) user ns host name invitee =
      (.resp (.error s!"Caught error inviting \"{invitee}\" to {ns}@{host}/{name}" (.str e.code)), []) := by
  refine ⟨?_, ?_, ?_⟩
  · simp [maintainers, hm]
  · simp [invite, hi]
  · simp [remove, hr]

/-- Witness for unmapped_errors_generic_and_logging at a concrete
unmapped storage error. -/
theorem unmapped_errors_generic_and_logging_witness :
    ¬ (⟨"boom", none, "ECONNRESET internal detail"⟩ : StorageErr).status = some 404 ∧
    inviteMsgTable "bob" "boom" = none ∧
    removeMsgTable "acme" "github" "widget" "bob" "boom" = none ∧
    (maintainers (.error ⟨"boom", none, "ECONNRESET internal detail"⟩)
       "acme" "github" "widget" =
       (.resp (.error "Caught error fetching maintainers for \"acme@github/widget\"." (.num 500)),
        [.error "ECONNRESET internal detail"]) ∧
     invite (.error ⟨"boom", none, "ECONNRESET internal detail"⟩)
       "alice" "acme" "github" "widget" "bob" =
       (.resp (.error "Caught error inviting \"bob\" to acme@github/widget" (.str "boom")), []) ∧
     remove (.error ⟨"boom", none, "ECONNRESET internal detail"⟩)
       "alice" "acme" "github" "widget" "bob" =
       (.resp (.error "Caught error inviting \"bob\" to acme@github/widget" (.str "boom")), [])) :=
  ⟨by decide, rfl, rfl,
   unmapped_errors_generic_and_logging ⟨"boom", none, "ECONNRESET internal detail"⟩
     "alice" "acme" "github" "widget" "bob" (by decide) rfl rfl⟩

/-- C8: in the route wiring of the source, invite and remove sit under
the canWrite decorator and accept and decline under the
isNamespaceMember decorator.  With the outer existence decorator
passing, a false gating predicate makes every endpoint return the
authorization failure with the state unchanged, for every inner handler
whatsoever, so the handler body and any mutation never run; with a true
predicate the endpoint is exactly the inner handler, so the predicate is
evaluated before the transition is attempted. -/
theorem predicates_gate_all_four_endpoints {σ : Type}
    (inner : σ → (HandlerResult × List LogEntry) × σ) (s : σ) :
    (inviteEndpoint true false inner s =
       ((.resp (.error "unauthorized" (.num 403)), []), s)) ∧
    (removeEndpoint true false inner s =
       ((.resp (.error "unauthorized" (.num 403)), []), s)) ∧
    (acceptEndpoint true false inner s =
       ((.resp (.error "unauthorized" (.num 403)), []), s)) ∧
    (declineEndpoint true false inner s =
       ((.resp (.error "unauthorized" (.num 403)), []), s)) ∧
    (inviteEndpoint true true inner s = inner s) ∧
    (removeEndpoint true true inner s = inner s) ∧
    (acceptEndpoint true true inner s = inner s) ∧
    (declineEndpoint true true inner s = inner s) :=
  ⟨rfl, rfl, rfl, rfl, rfl, rfl, rfl, rfl⟩

end Entropic
